import Mathlib

/-!
# Verification of the Hsuanwu space-preprocessing and environment-adapter code

Shallow embedding of:
* `src/rllte/common/preprocessing.py` — space-description normalizers
  (`process_observation_space`, `process_action_space`,
  `get_flattened_obs_dim`, `is_image_space_channels_first`,
  `is_image_space`, `get_preprocess_obs_fn`);
* `src/hsuanwu/env/minigrid/__init__.py` — the batched tensor adapter
  (`TorchVecEnvWrapper.step`) and the environment factory
  (`make_minigrid_env`).

Modelling conventions:
* gymnasium `Space` objects become the inductive `GymSpace`.  A `Box`
  carries its declared shape, the flattened per-element `low`/`high`
  bound arrays, and its numpy dtype.  Numeric bounds are modelled as
  exact rationals (the Python floats of interest — 0, 255, etc. — are
  exactly representable).  The `tuple` constructor stands for every
  space kind outside Box/Discrete/MultiDiscrete/MultiBinary/Dict
  (e.g. `spaces.Tuple`): all of those fall into the same `else` branch
  in the Python dispatch.
* Python functions that can raise become `Except String` values, the
  string being the error message raised.
* Observation batches fed to the preprocessing closures of
  `get_preprocess_obs_fn` are modelled as 1-D or 2-D arrays.  The
  discrete/multi-discrete paths carry integral payloads (`Int`), on
  which the `.long()` casts of the source are the identity; float
  outputs are rationals.
-/

/-- Numpy dtype of a `Box` space, as far as the code inspects it:
`is_image_space` only compares the dtype against `np.uint8`. -/
inductive NpDtype where
  | uint8
  | float32
  | float64
deriving DecidableEq, Repr

/-- A gymnasium space descriptor: tagged union over the space kinds the
repository dispatches on.  `box` = `spaces.Box` (Continuous), with the
declared shape, the flattened elementwise lower/upper bound arrays and
the dtype; `dict` = `spaces.Dict`; `tuple` represents any unsupported
kind (e.g. `spaces.Tuple`). -/
inductive GymSpace where
  | box (shape : List Nat) (low high : List ℚ) (dtype : NpDtype)
  | discrete (n : Nat)
  | multiDiscrete (nvec : List Nat)
  | multiBinary (shape : List Nat)
  | dict (spaces : List (String × GymSpace))
  | tuple (spaces : List GymSpace)
deriving Repr

/-- Result of `process_observation_space`: either a plain shape tuple or
(for `Dict` spaces) a mapping from key to recursively processed result. -/
inductive ObsShape where
  | shape (s : List Nat)
  | dict (m : List (String × ObsShape))
deriving Repr

/-- The error message raised by `process_observation_space` for an
unsupported space (`preprocessing.py` line 78); the space repr prefix of
the Python message is elided. -/
def obsUnsupportedMsg : String := "observation space is not supported"

/-- The error message raised by `process_action_space` for an
unsupported space (`preprocessing.py` line 112). -/
def actUnsupportedMsg : String := "action space is not supported"

/-- The error message raised by `get_preprocess_obs_fn` for an
unsupported space (`preprocessing.py` line 239). -/
def preprocessNotImplementedMsg : String := "Preprocessing not implemented"

mutual

/-- Embeds `process_observation_space` (`preprocessing.py` lines 53-78):
Box → declared shape; Discrete → `(1,)`; MultiDiscrete → `(len(nvec),)`;
MultiBinary → declared shape; Dict → recurse on every sub-space;
anything else raises `NotImplementedError`. -/
def process_observation_space : GymSpace → Except String ObsShape
  | .box shape _ _ _ => .ok (.shape shape)
  | .discrete _ => .ok (.shape [1])
  | .multiDiscrete nvec => .ok (.shape [nvec.length])
  | .multiBinary shape => .ok (.shape shape)
  | .dict sub =>
    match processObsDict sub with
    | .ok m => .ok (.dict m)
    | .error e => .error e
  | .tuple _ => .error obsUnsupportedMsg

/-- The dict comprehension on `preprocessing.py` line 75: process every
sub-space in order, propagating the first error. -/
def processObsDict : List (String × GymSpace) → Except String (List (String × ObsShape))
  | [] => .ok []
  | (k, s) :: rest =>
    match process_observation_space s, processObsDict rest with
    | .ok v, .ok vs => .ok ((k, v) :: vs)
    | .error e, _ => .error e
    | .ok _, .error e => .error e

end

/-- The `.shape` attribute of a gymnasium space, as read on
`preprocessing.py` line 91: Box/MultiBinary report the declared shape,
`Discrete` reports `()`, `MultiDiscrete(nvec)` reports `(len(nvec),)`,
`Dict`/`Tuple` report `None` (modelled `none`). -/
def GymSpace.shapeAttr : GymSpace → Option (List Nat)
  | .box shape _ _ _ => some shape
  | .discrete _ => some []
  | .multiDiscrete nvec => some [nvec.length]
  | .multiBinary shape => some shape
  | .dict _ => none
  | .tuple _ => none

/-- Embeds `process_action_space` (`preprocessing.py` lines 81-114).
Returns `(action_shape, action_dim, action_type, action_range)`.
Indexing an empty bounds/`nvec`/shape array raises in Python
(`IndexError`), modelled as an error. -/
def process_action_space (sp : GymSpace) :
    Except String (Option (List Nat) × Nat × String × List ℚ) :=
  let action_shape := sp.shapeAttr
  match sp with
  | .discrete n => .ok (action_shape, n, "Discrete", [0, (n : ℚ) - 1])
  | .box shape low high _ =>
    match low, high with
    | l0 :: _, h0 :: _ => .ok (action_shape, shape.prod, "Box", [l0, h0])
    | _, _ => .error "IndexError"
  | .multiDiscrete nvec =>
    match nvec with
    | c0 :: _ => .ok (action_shape, nvec.length, "MultiDiscrete", [0, (c0 : ℚ) - 1])
    | [] => .error "IndexError"
  | .multiBinary shape =>
    match shape with
    | s0 :: _ => .ok (action_shape, s0, "MultiBinary", [0, 1])
    | [] => .error "IndexError"
  | .dict _ => .error actUnsupportedMsg
  | .tuple _ => .error actUnsupportedMsg

mutual

/-- Embeds gymnasium's `spaces.utils.flatdim` (external library code
called on `preprocessing.py` line 131): flattened dimension of a space.
Box/MultiBinary → product of the shape; Discrete(n) → n;
MultiDiscrete(nvec) → len(nvec); Dict/Tuple → sum over sub-spaces. -/
def flatdim : GymSpace → Nat
  | .box shape _ _ _ => shape.prod
  | .discrete n => n
  | .multiDiscrete nvec => nvec.length
  | .multiBinary shape => shape.prod
  | .dict sub => flatdimDict sub
  | .tuple sub => flatdimList sub

/-- Sum of `flatdim` over the sub-spaces of a `Dict` space. -/
def flatdimDict : List (String × GymSpace) → Nat
  | [] => 0
  | (_, s) :: rest => flatdim s + flatdimDict rest

/-- Sum of `flatdim` over the sub-spaces of a `Tuple` space. -/
def flatdimList : List GymSpace → Nat
  | [] => 0
  | s :: rest => flatdim s + flatdimList rest

end

/-- Embeds `get_flattened_obs_dim` (`preprocessing.py` lines 117-131):
MultiDiscrete → `sum(nvec)`; everything else delegates to gymnasium's
`flatdim`. -/
def get_flattened_obs_dim (sp : GymSpace) : Nat :=
  match sp with
  | .multiDiscrete nvec => nvec.sum
  | _ => flatdim sp

/-- Embeds `np.argmin` on a 1-D array: index of the first minimal
element (numpy returns the first occurrence on ties; on an empty array
it raises, which never happens at the call site — `0` is a dummy). -/
def np_argmin : List Nat → Nat
  | [] => 0
  | [_] => 0
  | x :: y :: rest =>
    let j := np_argmin (y :: rest)
    if x ≤ (y :: rest).getD j 0 then 0 else j + 1

/-- Embeds `is_image_space_channels_first` (`preprocessing.py` lines
134-151), applied to the space's shape.  Returns
`(result, warning_emitted)`: the Boolean result of the function and
whether the `warnings.warn` call on line 150 fired (it fires exactly
when the smallest axis is index 1). -/
def is_image_space_channels_first (shape : List Nat) : Bool × Bool :=
  let smallest_dimension := np_argmin shape
  (smallest_dimension == 0, smallest_dimension == 1)

/-- Embeds `is_image_space` (`preprocessing.py` lines 154-198).
True only for a `Box` with exactly 3 axes whose dtype is `uint8` and
whose bounds are elementwise exactly `[0, 255]` (both checks skipped
when `normalized_image`), and — when `check_channels` — whose channel
count (axis 0 if channels-first by the argmin heuristic, else the last
axis) is 1, 3 or 4. -/
def is_image_space (sp : GymSpace) (check_channels : Bool) (normalized_image : Bool) : Bool :=
  let check_dtype := !normalized_image
  let check_bounds := !normalized_image
  match sp with
  | .box shape low high dtype =>
    if shape.length = 3 then
      if check_dtype && dtype != NpDtype.uint8 then false
      else
        let incorrect_bounds := low.any (fun l => l ≠ 0) || high.any (fun h => h ≠ 255)
        if check_bounds && incorrect_bounds then false
        else if !check_channels then true
        else
          let n_channels :=
            if (is_image_space_channels_first shape).1 then shape.headD 0
            else shape.getLastD 0
          n_channels = 1 || n_channels = 3 || n_channels = 4
    else false
  | _ => false

/-- A raw observation batch handed to a preprocessing closure: a 1-D or
2-D integer array (the discrete-valued observations the one-hot paths
receive; `.long()` is the identity on them). -/
inductive RawObs where
  | d1 (xs : List Int)
  | d2 (xss : List (List Int))
deriving Repr, DecidableEq

/-- A tensor produced by a preprocessing closure: a 1-D, 2-D or 3-D
array of exact numbers. -/
inductive PTensor where
  | d1 (xs : List ℚ)
  | d2 (xss : List (List ℚ))
  | d3 (xsss : List (List (List ℚ)))
deriving Repr, DecidableEq

/-- The one-hot vector of `x` among `num_classes` classes: `1` at
index `x`, `0` elsewhere. -/
def oneHotVec (num_classes : Nat) (x : Int) : List ℚ :=
  (List.range num_classes).map (fun (i : Nat) => if (i : Int) = x then 1 else 0)

/-- Embeds `torch.nn.functional.one_hot(x, num_classes)` on a scalar:
a vector of length `num_classes` with a single `1` at index `x`.
Torch raises a `RuntimeError` when the value is negative or `≥
num_classes`. -/
def one_hot (num_classes : Nat) (x : Int) : Except String (List ℚ) :=
  if 0 ≤ x ∧ x < num_classes then .ok (oneHotVec num_classes x)
  else .error "RuntimeError: one_hot index out of range"

/-- The `Discrete` branch of `get_preprocess_obs_fn`
(`preprocessing.py` line 231): `F.one_hot(as_tensor(obs).long(), n)`.
`one_hot` appends one axis: a 1-D batch becomes 2-D, a 2-D batch 3-D. -/
def discreteOneHot (n : Nat) : RawObs → Except String PTensor
  | .d1 xs => do .ok (.d2 (← xs.mapM (one_hot n)))
  | .d2 xss => do .ok (.d3 (← xss.mapM (fun row => row.mapM (one_hot n))))

/-- One row of `_multi_discrete_to_one_hot` (`preprocessing.py` lines
211-219): column `idx` is one-hot encoded with `nvec[idx]` classes and
the pieces are concatenated.  A row longer than `nvec` makes the Python
`observation_space.nvec[idx]` lookup raise `IndexError`. -/
def mdOneHotRow (nvec : List Nat) (row : List Int) : Except String (List ℚ) :=
  match row, nvec with
  | [], _ => .ok []
  | x :: xs, n :: ns => do
    let h ← one_hot n x
    let rest ← mdOneHotRow ns xs
    .ok (h ++ rest)
  | _ :: _, [] => .error "IndexError: nvec index out of range"

/-- Embeds `_multi_discrete_to_one_hot` (`preprocessing.py` lines
211-219): split the 2-D batch per column, one-hot each column by its own
class count, concatenate, then `view(B, sum(nvec))`.  A 1-D input makes
`th.split(·, 1, dim=1)` raise; the final `view` raises unless every
produced row has exactly `sum(nvec)` entries. -/
def multiDiscreteToOneHot (nvec : List Nat) : RawObs → Except String PTensor
  | .d1 _ => .error "IndexError: split dimension out of range"
  | .d2 xss => do
    let rows ← xss.mapM (mdOneHotRow nvec)
    if rows.all (fun r => r.length = nvec.sum) then .ok (.d2 rows)
    else .error "RuntimeError: view shape mismatch"

/-- The image branch of `get_preprocess_obs_fn` (`preprocessing.py`
line 225): `as_tensor(obs) / 255.0`. -/
def divideBy255 : RawObs → Except String PTensor
  | .d1 xs => .ok (.d1 (xs.map (fun x => (x : ℚ) / 255)))
  | .d2 xss => .ok (.d2 (xss.map (fun r => r.map (fun x => (x : ℚ) / 255))))

/-- The state-based Box branch (line 228) and the MultiBinary branch
(line 237) of `get_preprocess_obs_fn`: a float cast, exact on the
integral payloads modelled here. -/
def castToFloat : RawObs → Except String PTensor
  | .d1 xs => .ok (.d1 (xs.map (fun x => (x : ℚ))))
  | .d2 xss => .ok (.d2 (xss.map (fun r => r.map (fun x => (x : ℚ)))))

/-- Embeds `get_preprocess_obs_fn` (`preprocessing.py` lines 201-239):
dispatch on the space kind, returning the preprocessing closure, or
raising `NotImplementedError` for unsupported kinds (Dict included —
the Python function has no Dict branch). -/
def get_preprocess_obs_fn (sp : GymSpace) :
    Except String (RawObs → Except String PTensor) :=
  match sp with
  | .box _ _ _ _ =>
    if is_image_space sp false false then .ok divideBy255 else .ok castToFloat
  | .discrete n => .ok (discreteOneHot n)
  | .multiDiscrete nvec => .ok (multiDiscreteToOneHot nvec)
  | .multiBinary _ => .ok castToFloat
  | .dict _ => .error preprocessNotImplementedMsg
  | .tuple _ => .error preprocessNotImplementedMsg

/-- Select the preprocessing closure for `sp` and apply it to `obs`. -/
def applyPreprocess (sp : GymSpace) (obs : RawObs) : Except String PTensor := do
  (← get_preprocess_obs_fn sp) obs

/-- The output of the inner `SyncVectorEnv.step` call (external library
code, `minigrid/__init__.py` line 55): a batch observation array, one
reward per environment, and the terminated/truncated flag per
environment. -/
structure VecStepOut where
  obs : List (List ℚ)
  reward : List ℚ
  terminated : List Bool
  truncated : List Bool
deriving Repr

/-- A torch tensor together with the device it was materialized on
(the `device=self._device` argument of every `th.as_tensor` call in
`TorchVecEnvWrapper`). -/
structure DevTensor (α : Type) where
  device : String
  data : α
deriving Repr, DecidableEq

/-- Embeds the output conversion of `TorchVecEnvWrapper.step`
(`minigrid/__init__.py` lines 52-73).  The wrapped vectorized step
itself is external library code; its output is this function's input.
The observation is converted to a tensor on the configured device; the
reward is cast to float32 and `unsqueeze(dim=1)`-ed into a column
vector; terminated/truncated become float32 column vectors via the
comprehension `[[1.0] if _ else [0.0] for _ in flags]`. -/
def torchVecEnvWrapperStep (device : String) (out : VecStepOut) :
    DevTensor (List (List ℚ)) × DevTensor (List (List ℚ)) ×
    DevTensor (List (List ℚ)) × DevTensor (List (List ℚ)) :=
  (⟨device, out.obs⟩,
   ⟨device, out.reward.map (fun r => [r])⟩,
   ⟨device, out.terminated.map (fun b => if b then [1] else [0])⟩,
   ⟨device, out.truncated.map (fun b => if b then [1] else [0])⟩)

/-- Symbolic description of the environment built by the factory's
`_thunk` (`minigrid/__init__.py` lines 98-114): the base `gym.make`
result and the wrappers applied around it, plus the recorded seeding of
its action/observation spaces. -/
inductive EnvSpec where
  | base (env_id : String)
  | fullyObsWrapper (e : EnvSpec)
  | minigrid2Image (e : EnvSpec)
  | frameStack (e : EnvSpec) (k : Nat)
  | flatObsWrapper (e : EnvSpec)
  | spacesSeeded (e : EnvSpec) (seed : Int)
deriving Repr, DecidableEq

/-- Embeds the `_thunk` body (`minigrid/__init__.py` lines 99-112):
`gym.make(env_id)`, then — when `fully_observable` —
`FullyObsWrapper`, `Minigrid2Image`, `FrameStack(·, k=frame_stack)`,
otherwise `FlatObsWrapper`; finally `env.action_space.seed(seed)` and
`env.observation_space.seed(seed)` (recorded as `spacesSeeded`). -/
def make_env (env_id : String) (fully_observable : Bool) (frame_stack : Nat)
    (seed : Int) : EnvSpec :=
  let e := EnvSpec.base env_id
  let e :=
    if fully_observable then
      EnvSpec.frameStack (EnvSpec.minigrid2Image (EnvSpec.fullyObsWrapper e)) frame_stack
    else EnvSpec.flatObsWrapper e
  EnvSpec.spacesSeeded e seed

/-- Embeds the environment-construction loop of `make_minigrid_env`
(`minigrid/__init__.py` line 116): `[make_env(env_id, seed + i) for i
in range(num_envs)]`.  The subsequent `SyncVectorEnv`,
`RecordEpisodeStatistics` and `TorchVecEnvWrapper` wrappers act on the
whole batch and are external to the per-instance construction. -/
def make_minigrid_env (env_id : String) (num_envs : Nat)
    (fully_observable : Bool) (seed : Int) (frame_stack : Nat) : List EnvSpec :=
  (List.range num_envs).map
    (fun (i : Nat) => make_env env_id fully_observable frame_stack (seed + (i : Int)))

/-! ## Theorems -/

/-- Helper: `processObsDict` succeeds with `m` exactly when `m` pairs
each key of `l` with the recursively processed result of its
sub-space. -/
theorem processObsDict_ok_iff (l : List (String × GymSpace)) (m : List (String × ObsShape)) :
    processObsDict l = .ok m ↔
      List.Forall₂
        (fun (p : String × GymSpace) (q : String × ObsShape) =>
          p.1 = q.1 ∧ process_observation_space p.2 = .ok q.2) l m := by
  induction l generalizing m with
  | nil =>
    cases m with
    | nil => simp [processObsDict]
    | cons q qs =>
      simp only [processObsDict]
      constructor
      · intro h; cases h
      · intro h; cases h
  | cons p rest ih =>
    obtain ⟨k, s⟩ := p
    cases m with
    | nil =>
      simp only [processObsDict]
      constructor
      · intro h
        cases hv : process_observation_space s with
        | error e => rw [hv] at h; cases h
        | ok v =>
          cases hvs : processObsDict rest with
          | error e => rw [hv, hvs] at h; cases h
          | ok vs => rw [hv, hvs] at h; cases h
      · intro h; cases h
    | cons q qs =>
      simp only [processObsDict]
      constructor
      · intro h
        cases hv : process_observation_space s with
        | error e => rw [hv] at h; cases h
        | ok v =>
          cases hvs : processObsDict rest with
          | error e => rw [hv, hvs] at h; cases h
          | ok vs =>
            rw [hv, hvs] at h
            simp only [Except.ok.injEq, List.cons.injEq] at h
            obtain ⟨h1, h2⟩ := h
            subst h1 h2
            exact .cons ⟨rfl, hv⟩ ((ih vs).mp hvs)
      · intro h
        rcases h with _ | ⟨⟨hk, hv⟩, htail⟩
        rw [hv, (ih qs).mpr htail]
        cases q
        simp only at hk
        subst hk
        rfl

/-- C1: `process_action_space` follows its dispatch table: for
`Discrete(n)` with `n ≥ 1` it returns dimension `n`, tag `"Discrete"`
and range `[0, n-1]`; for `Box` it returns dimension `prod(shape)`, tag
`"Box"` and range `[low[0], high[0]]` (the first component's bounds
only); for `MultiDiscrete(counts)` it returns dimension `len(counts)`,
tag `"MultiDiscrete"` and range `[0, counts[0]-1]`; for `MultiBinary`
it returns dimension `shape[0]`, tag `"MultiBinary"` and range
`[0, 1]`; each paired with the space's `.shape` attribute. -/
theorem C1_process_action_space_table
    (n : Nat) (_hn : 1 ≤ n)
    (shape : List Nat) (l0 h0 : ℚ) (ltl htl : List ℚ) (dt : NpDtype)
    (c0 : Nat) (ctl : List Nat) (s0 : Nat) (stl : List Nat) :
    process_action_space (.discrete n) =
      .ok ((GymSpace.discrete n).shapeAttr, n, "Discrete", [0, (n : ℚ) - 1]) ∧
    process_action_space (.box shape (l0 :: ltl) (h0 :: htl) dt) =
      .ok ((GymSpace.box shape (l0 :: ltl) (h0 :: htl) dt).shapeAttr,
           shape.prod, "Box", [l0, h0]) ∧
    process_action_space (.multiDiscrete (c0 :: ctl)) =
      .ok ((GymSpace.multiDiscrete (c0 :: ctl)).shapeAttr,
           (c0 :: ctl).length, "MultiDiscrete", [0, (c0 : ℚ) - 1]) ∧
    process_action_space (.multiBinary (s0 :: stl)) =
      .ok ((GymSpace.multiBinary (s0 :: stl)).shapeAttr, s0, "MultiBinary", [0, 1]) :=
  ⟨rfl, rfl, rfl, rfl⟩

/-- Witness for C1 at `Discrete(4)`, `Box((2,3), low=[-1,…], high=[1,…])`,
`MultiDiscrete([3,4,5])`, `MultiBinary((6,))`. -/
theorem C1_witness :
    process_action_space (.discrete 4) = .ok (some [], 4, "Discrete", [0, (4 : ℚ) - 1]) ∧
    process_action_space (.box [2, 3] [-1, -1] [1, 1] .float32) =
      .ok (some [2, 3], 6, "Box", [-1, 1]) ∧
    process_action_space (.multiDiscrete [3, 4, 5]) =
      .ok (some [3], 3, "MultiDiscrete", [0, (3 : ℚ) - 1]) ∧
    process_action_space (.multiBinary [6]) = .ok (some [6], 6, "MultiBinary", [0, 1]) :=
  C1_process_action_space_table 4 (by decide) [2, 3] (-1) 1 [-1] [1] .float32 3 [4, 5] 6 []

/-- C2: `process_observation_space` returns the declared shape for a
Box, `(1,)` for a Discrete, `(len(counts),)` for a MultiDiscrete, the
declared shape for a MultiBinary, and for a Dict space a mapping from
each key to the recursively processed sub-shape. -/
theorem C2_process_observation_space_table
    (shape : List Nat) (low high : List ℚ) (dt : NpDtype) (n : Nat)
    (nvec bshape : List Nat)
    (l : List (String × GymSpace)) (m : List (String × ObsShape)) :
    process_observation_space (.box shape low high dt) = .ok (.shape shape) ∧
    process_observation_space (.discrete n) = .ok (.shape [1]) ∧
    process_observation_space (.multiDiscrete nvec) = .ok (.shape [nvec.length]) ∧
    process_observation_space (.multiBinary bshape) = .ok (.shape bshape) ∧
    (process_observation_space (.dict l) = .ok (.dict m) ↔
      List.Forall₂
        (fun (p : String × GymSpace) (q : String × ObsShape) =>
          p.1 = q.1 ∧ process_observation_space p.2 = .ok q.2) l m) := by
  refine ⟨rfl, rfl, rfl, rfl, ?_⟩
  rw [← processObsDict_ok_iff]
  show (match processObsDict l with
        | .ok r => Except.ok (ObsShape.dict r)
        | .error e => Except.error e) = .ok (.dict m) ↔ processObsDict l = .ok m
  cases h : processObsDict l with
  | error e => simp
  | ok r => simp

/-- C3: every unsupported space kind (modelled by the `tuple`
constructor; `dict` is additionally unsupported by
`process_action_space` and `get_preprocess_obs_fn`) makes
`process_observation_space`/`process_action_space` raise the
"unsupported space" error and `get_preprocess_obs_fn` raise the
"preprocessing not implemented" error — an `Except.error`, never a
silently returned default value. -/
theorem C3_unsupported_spaces_raise
    (subT : List GymSpace) (subD : List (String × GymSpace)) :
    process_observation_space (.tuple subT) = .error obsUnsupportedMsg ∧
    process_action_space (.tuple subT) = .error actUnsupportedMsg ∧
    process_action_space (.dict subD) = .error actUnsupportedMsg ∧
    get_preprocess_obs_fn (.tuple subT) = .error preprocessNotImplementedMsg ∧
    get_preprocess_obs_fn (.dict subD) = .error preprocessNotImplementedMsg :=
  ⟨rfl, rfl, rfl, rfl, rfl⟩

/-- Helper: `np_argmin` on a 3-element list is 0 exactly when the first
element attains the minimum. -/
theorem np_argmin3_eq_zero_iff (s0 s1 s2 : Nat) :
    np_argmin [s0, s1, s2] = 0 ↔ s0 ≤ s1 ∧ s0 ≤ s2 := by
  simp only [np_argmin]
  by_cases h12 : s1 ≤ s2 <;> by_cases h01 : s0 ≤ s1 <;> by_cases h02 : s0 ≤ s2 <;>
    simp [h12, h01, h02, List.getD] <;> omega

/-- Helper: `np_argmin` on a 3-element list is 1 exactly when the
middle element is the unique first minimum: strictly below the first
element and at most the last. -/
theorem np_argmin3_eq_one_iff (s0 s1 s2 : Nat) :
    np_argmin [s0, s1, s2] = 1 ↔ s1 < s0 ∧ s1 ≤ s2 := by
  simp only [np_argmin]
  by_cases h12 : s1 ≤ s2 <;> by_cases h01 : s0 ≤ s1 <;> by_cases h02 : s0 ≤ s2 <;>
    simp [h12, h01, h02, List.getD] <;> omega

/-- C5: on a 3-axis shape, `is_image_space_channels_first` returns true
iff axis 0 attains the smallest extent; the ambiguous-layout warning
fires exactly when the middle axis is the (first) smallest — strictly
smaller than axis 0 and no larger than axis 2 — and in that case the
function reports channels-last (false). -/
theorem C5_channels_first_heuristic (s0 s1 s2 : Nat) :
    ((is_image_space_channels_first [s0, s1, s2]).1 = true ↔ s0 ≤ s1 ∧ s0 ≤ s2) ∧
    ((is_image_space_channels_first [s0, s1, s2]).2 = true ↔ s1 < s0 ∧ s1 ≤ s2) ∧
    ((is_image_space_channels_first [s0, s1, s2]).2 = true →
      (is_image_space_channels_first [s0, s1, s2]).1 = false) := by
  simp only [is_image_space_channels_first, beq_iff_eq]
  refine ⟨np_argmin3_eq_zero_iff s0 s1 s2, np_argmin3_eq_one_iff s0 s1 s2, ?_⟩
  intro h
  have h1 := (np_argmin3_eq_one_iff s0 s1 s2).mp h
  have h0 : ¬ (s0 ≤ s1 ∧ s0 ≤ s2) := by omega
  rw [← np_argmin3_eq_zero_iff s0 s1 s2] at h0
  simp [h0]

/-- Helper: a replicated-constant bounds array passes the elementwise
`np.any(arr != c)` test. -/
theorem any_ne_replicate_false (n : Nat) (q : ℚ) :
    (List.replicate n q).any (fun l => l ≠ q) = false := by
  induction n with
  | zero => rfl
  | succ k ih => simp [List.replicate_succ, ih]

/-- C4: `is_image_space` is true for a Box space exactly when it has 3
axes, and — unless `normalized_image` — dtype `uint8` and bounds
exactly `0`/`255` on every element, and — if `check_channels` — a
channel count (via the channels-first heuristic) in `{1,3,4}`; it is
true only for Box spaces; concretely it accepts a `(3,84,84)` uint8
`[0,255]` Box and rejects the same Box with a float dtype. -/
theorem C4_is_image_space_characterization :
    (∀ (shape : List Nat) (low high : List ℚ) (dt : NpDtype) (cc ni : Bool),
      is_image_space (.box shape low high dt) cc ni = true ↔
        shape.length = 3 ∧
        (ni = false → dt = NpDtype.uint8 ∧ (∀ l ∈ low, l = 0) ∧ (∀ q ∈ high, q = 255)) ∧
        (cc = true →
          (if (is_image_space_channels_first shape).1 then shape.headD 0
           else shape.getLastD 0) = 1 ∨
          (if (is_image_space_channels_first shape).1 then shape.headD 0
           else shape.getLastD 0) = 3 ∨
          (if (is_image_space_channels_first shape).1 then shape.headD 0
           else shape.getLastD 0) = 4)) ∧
    (∀ (sp : GymSpace) (cc ni : Bool), is_image_space sp cc ni = true →
      ∃ shape low high dt, sp = GymSpace.box shape low high dt) ∧
    is_image_space
      (.box [3, 84, 84] (List.replicate 21168 0) (List.replicate 21168 255) .uint8)
      false false = true ∧
    is_image_space
      (.box [3, 84, 84] (List.replicate 21168 0) (List.replicate 21168 255) .float32)
      false false = false := by
  refine ⟨?_, ?_, ?_, ?_⟩
  · intro shape low high dt cc ni
    simp only [is_image_space]
    by_cases h3 : shape.length = 3 <;>
      by_cases hdt : dt = NpDtype.uint8 <;>
      cases ni <;> cases cc <;>
      by_cases hlow : ∀ l ∈ low, l = 0 <;>
      by_cases hhigh : ∀ q ∈ high, q = 255 <;>
      simp_all [List.any_eq_true] <;> tauto
  · intro sp cc ni h
    cases sp with
    | box shape low high dt => exact ⟨shape, low, high, dt, rfl⟩
    | discrete n => simp [is_image_space] at h
    | multiDiscrete nvec => simp [is_image_space] at h
    | multiBinary s => simp [is_image_space] at h
    | dict d => simp [is_image_space] at h
    | tuple t => simp [is_image_space] at h
  · simp only [is_image_space]
    rw [any_ne_replicate_false, any_ne_replicate_false]
    rfl
  · rfl

/-- Helper: a one-hot vector has one entry per class. -/
theorem oneHotVec_length (n : Nat) (x : Int) : (oneHotVec n x).length = n := by
  simp [oneHotVec]

/-- Helper: `one_hot` succeeds on an in-range value. -/
theorem one_hot_ok (n : Nat) (x : Int) (h0 : 0 ≤ x) (h1 : x < (n : Int)) :
    one_hot n x = .ok (oneHotVec n x) := by
  simp [one_hot, h0, h1]

/-- Helper: the one-hot vector carries a `1` at the encoded index. -/
theorem oneHotVec_getD_self (n : Nat) (x : Int) (h0 : 0 ≤ x) (h1 : x < (n : Int)) :
    (oneHotVec n x).getD x.toNat 0 = 1 := by
  have hx : x.toNat < n := by omega
  simp [oneHotVec, List.getD_eq_getElem?_getD, List.getElem?_map, List.getElem?_range hx,
    Int.toNat_of_nonneg h0]

/-- Helper: the one-hot vector carries a `0` at every other index. -/
theorem oneHotVec_getD_other (n : Nat) (x : Int) (j : Nat) (hj : j < n)
    (hne : (j : Int) ≠ x) :
    (oneHotVec n x).getD j 0 = 0 := by
  simp [oneHotVec, List.getD_eq_getElem?_getD, List.getElem?_map, List.getElem?_range hj, hne]

/-- Helper: the one-hot vector of an in-range value contains exactly
one `1`. -/
theorem oneHotVec_count_one (n : Nat) (x : Int) (h0 : 0 ≤ x) (h1 : x < (n : Int)) :
    (oneHotVec n x).count 1 = 1 := by
  have hx : x.toNat < n := by omega
  rw [oneHotVec, List.count_eq_countP, List.countP_map]
  have hcongr : ∀ i ∈ List.range n,
      (((fun q => q == (1 : ℚ)) ∘ fun (i : Nat) => if (i : Int) = x then (1 : ℚ) else 0) i
        = true) ↔
      ((fun (i : Nat) => i == x.toNat) i = true) := by
    intro i _
    by_cases h : (i : Int) = x
    · have hix : i = x.toNat := by omega
      simp [h, hix, h0]
    · have hix : i ≠ x.toNat := by omega
      simp [h, hix]
  rw [List.countP_congr hcongr, ← List.count_eq_countP]
  exact List.count_eq_one_of_mem (List.nodup_range n) (List.mem_range.mpr hx)

/-- Helper: `mapM` of `one_hot` over an in-range batch succeeds with
the pure one-hot vectors. -/
theorem mapM_one_hot_ok (n : Nat) (xs : List Int)
    (h : ∀ x ∈ xs, 0 ≤ x ∧ x < (n : Int)) :
    xs.mapM (one_hot n) = .ok (xs.map (oneHotVec n)) := by
  induction xs with
  | nil => rfl
  | cons a tl ih =>
    rw [List.mapM_cons]
    have ha := h a (List.mem_cons_self a tl)
    rw [one_hot_ok n a ha.1 ha.2, ih (fun x hx => h x (List.mem_cons_of_mem a hx))]
    rfl

/-- C6: for a `Discrete(n)` space, the preprocessing function returned
by `get_preprocess_obs_fn` one-hot encodes a raw batch into `n`
classes: each in-range value `x` becomes a row of width `n` holding
exactly one `1` — at index `x` — and `0` everywhere else; on
`Discrete(5)` with raw values `[0,2,4]` it yields one-hot rows of width
5 with the `1` at indices 0, 2 and 4. -/
theorem C6_discrete_one_hot (n : Nat) (xs : List Int)
    (h : ∀ x ∈ xs, 0 ≤ x ∧ x < (n : Int)) :
    applyPreprocess (.discrete n) (.d1 xs) = .ok (.d2 (xs.map (oneHotVec n))) ∧
    (∀ x ∈ xs, (oneHotVec n x).length = n ∧ (oneHotVec n x).count 1 = 1 ∧
      (oneHotVec n x).getD x.toNat 0 = 1 ∧
      ∀ j, j < n → j ≠ x.toNat → (oneHotVec n x).getD j 0 = 0) ∧
    applyPreprocess (.discrete 5) (.d1 [0, 2, 4]) =
      .ok (.d2 [[1, 0, 0, 0, 0], [0, 0, 1, 0, 0], [0, 0, 0, 0, 1]]) := by
  refine ⟨?_, ?_, ?_⟩
  · have hrw : applyPreprocess (GymSpace.discrete n) (.d1 xs) =
        (xs.mapM (one_hot n)) >>= (fun r => Except.ok (PTensor.d2 r)) := rfl
    rw [hrw, mapM_one_hot_ok n xs h]
    rfl
  · intro x hx
    obtain ⟨h0, h1⟩ := h x hx
    refine ⟨oneHotVec_length n x, oneHotVec_count_one n x h0 h1,
      oneHotVec_getD_self n x h0 h1, fun j hj hne => ?_⟩
    exact oneHotVec_getD_other n x j hj (by omega)
  · rfl

/-- Witness for C6: `Discrete(5)` applied to the batch `[0,2,4]`. -/
theorem C6_witness :
    applyPreprocess (.discrete 5) (.d1 [0, 2, 4]) =
      .ok (.d2 [[1, 0, 0, 0, 0], [0, 0, 1, 0, 0], [0, 0, 0, 0, 1]]) :=
  (C6_discrete_one_hot 5 [0, 2, 4] (by decide)).2.2

/-- Helper: on a row whose values are in range for the per-column class
counts, `mdOneHotRow` succeeds with the concatenation of the per-column
one-hot vectors, which has width `sum(nvec)`. -/
theorem mdOneHotRow_ok (nvec : List Nat) (row : List Int)
    (h : List.Forall₂ (fun (n : Nat) (x : Int) => 0 ≤ x ∧ x < (n : Int)) nvec row) :
    mdOneHotRow nvec row = .ok ((List.zipWith oneHotVec nvec row).flatten) ∧
    ((List.zipWith oneHotVec nvec row).flatten).length = nvec.sum := by
  induction h with
  | nil => exact ⟨rfl, rfl⟩
  | @cons n x ns xs hx htail ih =>
    constructor
    · show (one_hot n x >>= fun a =>
            mdOneHotRow ns xs >>= fun rest => Except.ok (a ++ rest)) = _
      rw [one_hot_ok n x hx.1 hx.2, ih.1]
      rfl
    · simp only [List.zipWith_cons_cons, List.flatten_cons, List.length_append,
        oneHotVec_length, List.sum_cons, ih.2]

/-- Helper: `mapM` of `mdOneHotRow` over a batch of in-range rows
succeeds with the per-row one-hot concatenations. -/
theorem mapM_mdOneHotRow_ok (nvec : List Nat) (xss : List (List Int))
    (h : ∀ row ∈ xss,
      List.Forall₂ (fun (n : Nat) (x : Int) => 0 ≤ x ∧ x < (n : Int)) nvec row) :
    xss.mapM (mdOneHotRow nvec) =
      .ok (xss.map (fun row => (List.zipWith oneHotVec nvec row).flatten)) := by
  induction xss with
  | nil => rfl
  | cons r tl ih =>
    rw [List.mapM_cons, (mdOneHotRow_ok nvec r (h r (List.mem_cons_self r tl))).1,
      ih (fun row hrow => h row (List.mem_cons_of_mem r hrow))]
    rfl

/-- C7: for a `MultiDiscrete(counts)` space, the preprocessing function
returned by `get_preprocess_obs_fn` one-hot encodes every column of the
batch by its own class count and concatenates along the feature axis:
an input of `B` in-range rows yields `B` rows, each of total width
`sum(counts)`. -/
theorem C7_multi_discrete_concat (nvec : List Nat) (xss : List (List Int))
    (h : ∀ row ∈ xss,
      List.Forall₂ (fun (n : Nat) (x : Int) => 0 ≤ x ∧ x < (n : Int)) nvec row) :
    applyPreprocess (.multiDiscrete nvec) (.d2 xss) =
      .ok (.d2 (xss.map (fun row => (List.zipWith oneHotVec nvec row).flatten))) ∧
    (xss.map (fun row => (List.zipWith oneHotVec nvec row).flatten)).length = xss.length ∧
    ∀ row ∈ xss, ((List.zipWith oneHotVec nvec row).flatten).length = nvec.sum := by
  have hlen : ∀ row ∈ xss, ((List.zipWith oneHotVec nvec row).flatten).length = nvec.sum :=
    fun row hrow => (mdOneHotRow_ok nvec row (h row hrow)).2
  refine ⟨?_, List.length_map xss _, hlen⟩
  have hrw : applyPreprocess (GymSpace.multiDiscrete nvec) (.d2 xss) =
      (xss.mapM (mdOneHotRow nvec)) >>= (fun rows =>
        if rows.all (fun r => r.length = nvec.sum) then Except.ok (PTensor.d2 rows)
        else Except.error "RuntimeError: view shape mismatch") := rfl
  rw [hrw, mapM_mdOneHotRow_ok nvec xss h]
  have hall : (xss.map (fun row => (List.zipWith oneHotVec nvec row).flatten)).all
      (fun r => r.length = nvec.sum) = true := by
    rw [List.all_eq_true]
    intro r hr
    rw [List.mem_map] at hr
    obtain ⟨row, hrow, hrfl⟩ := hr
    subst hrfl
    simp [hlen row hrow]
  show (if (xss.map (fun row => (List.zipWith oneHotVec nvec row).flatten)).all
      (fun r => r.length = nvec.sum) = true then _ else _) = _
  rw [if_pos hall]

/-- Witness for C7: `MultiDiscrete([3,4,5])` applied to the two-row
batch `[[1,2,3],[2,0,4]]`. -/
theorem C7_witness :
    applyPreprocess (.multiDiscrete [3, 4, 5]) (.d2 [[1, 2, 3], [2, 0, 4]]) =
      .ok (.d2 [[0, 1, 0, 0, 0, 1, 0, 0, 0, 0, 1, 0],
                [0, 0, 1, 1, 0, 0, 0, 0, 0, 0, 0, 1]]) := by
  have h := (C7_multi_discrete_concat [3, 4, 5] [[1, 2, 3], [2, 0, 4]]
    (by intro row hrow; fin_cases hrow <;> decide)).1
  rw [h]
  rfl

/-- C10: for a `MultiDiscrete(counts)` space, `get_flattened_obs_dim`
returns `sum(counts)`, and whenever the preprocessing function selected
by `get_preprocess_obs_fn` for the same space produces a batch, every
produced row has exactly that feature width (the one-hot concatenation
width). -/
theorem C10_flattened_dim_is_one_hot_width (nvec : List Nat) (xss : List (List Int))
    (rows : List (List ℚ))
    (hok : applyPreprocess (.multiDiscrete nvec) (.d2 xss) = .ok (.d2 rows)) :
    get_flattened_obs_dim (.multiDiscrete nvec) = nvec.sum ∧
    ∀ r ∈ rows, r.length = get_flattened_obs_dim (.multiDiscrete nvec) := by
  refine ⟨rfl, ?_⟩
  have hrw : applyPreprocess (GymSpace.multiDiscrete nvec) (.d2 xss) =
      (xss.mapM (mdOneHotRow nvec)) >>= (fun rs =>
        if rs.all (fun r => r.length = nvec.sum) then Except.ok (PTensor.d2 rs)
        else Except.error "RuntimeError: view shape mismatch") := rfl
  rw [hrw] at hok
  cases hm : xss.mapM (mdOneHotRow nvec) with
  | error e => rw [hm] at hok; cases hok
  | ok rs =>
    rw [hm] at hok
    show ∀ r ∈ rows, r.length = nvec.sum
    by_cases hall : rs.all (fun r => r.length = nvec.sum) = true
    · have : (if rs.all (fun r => r.length = nvec.sum) = true
          then Except.ok (PTensor.d2 rs)
          else Except.error "RuntimeError: view shape mismatch") = Except.ok (PTensor.d2 rs) :=
        if_pos hall
      rw [show ((Except.ok rs : Except String (List (List ℚ))) >>= (fun rs =>
            if rs.all (fun r => r.length = nvec.sum) then Except.ok (PTensor.d2 rs)
            else Except.error "RuntimeError: view shape mismatch")) =
          (if rs.all (fun r => r.length = nvec.sum) = true
            then Except.ok (PTensor.d2 rs)
            else Except.error "RuntimeError: view shape mismatch") from rfl, this] at hok
      cases hok
      intro r hr
      exact of_decide_eq_true (List.all_eq_true.mp hall r hr)
    · have : (if rs.all (fun r => r.length = nvec.sum) = true
          then Except.ok (PTensor.d2 rs)
          else Except.error "RuntimeError: view shape mismatch") =
          Except.error "RuntimeError: view shape mismatch" :=
        if_neg hall
      rw [show ((Except.ok rs : Except String (List (List ℚ))) >>= (fun rs =>
            if rs.all (fun r => r.length = nvec.sum) then Except.ok (PTensor.d2 rs)
            else Except.error "RuntimeError: view shape mismatch")) =
          (if rs.all (fun r => r.length = nvec.sum) = true
            then Except.ok (PTensor.d2 rs)
            else Except.error "RuntimeError: view shape mismatch") from rfl, this] at hok
      cases hok

/-- Witness for C10: `MultiDiscrete([3,4,5])` on the batch `[[1,2,3]]`
produces one row of width `3+4+5 = 12`. -/
theorem C10_witness :
    get_flattened_obs_dim (.multiDiscrete [3, 4, 5]) = [3, 4, 5].sum ∧
    ∀ r ∈ [[(0 : ℚ), 1, 0, 0, 0, 1, 0, 0, 0, 0, 1, 0]],
      r.length = get_flattened_obs_dim (.multiDiscrete [3, 4, 5]) :=
  C10_flattened_dim_is_one_hot_width [3, 4, 5] [[1, 2, 3]]
    [[0, 1, 0, 0, 0, 1, 0, 0, 0, 0, 1, 0]] rfl

/-- C8: the batched tensor adapter's step conversion returns the
observation as a tensor on the configured device and turns reward,
terminated and truncated into float32 column-vector tensors of shape
`(N, 1)` on the configured device, where `N` is the number of wrapped
environments: each reward `r` becomes the row `[r]`, and each
terminated/truncated flag becomes `[1.0]` when true and `[0.0]` when
false. -/
theorem C8_step_column_vectors (device : String) (out : VecStepOut) (N : Nat)
    (hr : out.reward.length = N) (ht : out.terminated.length = N)
    (hu : out.truncated.length = N) :
    (torchVecEnvWrapperStep device out).1.device = device ∧
    (torchVecEnvWrapperStep device out).1.data = out.obs ∧
    (torchVecEnvWrapperStep device out).2.1.device = device ∧
    (torchVecEnvWrapperStep device out).2.1.data = out.reward.map (fun r => [r]) ∧
    (torchVecEnvWrapperStep device out).2.1.data.length = N ∧
    (∀ row ∈ (torchVecEnvWrapperStep device out).2.1.data, row.length = 1) ∧
    (torchVecEnvWrapperStep device out).2.2.1.device = device ∧
    (torchVecEnvWrapperStep device out).2.2.1.data =
      out.terminated.map (fun b => if b then [(1 : ℚ)] else [0]) ∧
    (torchVecEnvWrapperStep device out).2.2.1.data.length = N ∧
    (∀ row ∈ (torchVecEnvWrapperStep device out).2.2.1.data, row.length = 1) ∧
    (torchVecEnvWrapperStep device out).2.2.2.device = device ∧
    (torchVecEnvWrapperStep device out).2.2.2.data =
      out.truncated.map (fun b => if b then [(1 : ℚ)] else [0]) ∧
    (torchVecEnvWrapperStep device out).2.2.2.data.length = N ∧
    (∀ row ∈ (torchVecEnvWrapperStep device out).2.2.2.data, row.length = 1) := by
  refine ⟨rfl, rfl, rfl, rfl, ?_, ?_, rfl, rfl, ?_, ?_, rfl, rfl, ?_, ?_⟩
  · simpa [torchVecEnvWrapperStep] using hr
  · intro row hrow
    simp only [torchVecEnvWrapperStep, List.mem_map] at hrow
    obtain ⟨r, _, hrfl⟩ := hrow
    subst hrfl
    rfl
  · simpa [torchVecEnvWrapperStep] using ht
  · intro row hrow
    simp only [torchVecEnvWrapperStep, List.mem_map] at hrow
    obtain ⟨b, _, hrfl⟩ := hrow
    subst hrfl
    cases b <;> rfl
  · simpa [torchVecEnvWrapperStep] using hu
  · intro row hrow
    simp only [torchVecEnvWrapperStep, List.mem_map] at hrow
    obtain ⟨b, _, hrfl⟩ := hrow
    subst hrfl
    cases b <;> rfl

/-- Witness for C8: a 2-environment step outcome on device `"cpu"`. -/
theorem C8_witness :
    (torchVecEnvWrapperStep "cpu" ⟨[[3, 4]], [1/2, 1], [true, false], [false, true]⟩).2.1.data =
      [[(1 : ℚ)/2], [1]] ∧
    (torchVecEnvWrapperStep "cpu" ⟨[[3, 4]], [1/2, 1], [true, false], [false, true]⟩).2.2.1.data =
      [[(1 : ℚ)], [0]] ∧
    (torchVecEnvWrapperStep "cpu" ⟨[[3, 4]], [1/2, 1], [true, false], [false, true]⟩).2.2.2.data =
      [[(0 : ℚ)], [1]] := by
  have h := C8_step_column_vectors "cpu"
    ⟨[[3, 4]], [1/2, 1], [true, false], [false, true]⟩ 2 rfl rfl rfl
  exact ⟨by rw [h.2.2.2.1]; rfl, by rw [h.2.2.2.2.2.2.2.1]; rfl,
    by rw [h.2.2.2.2.2.2.2.2.2.2.2.1]; rfl⟩

/-- C9: the factory builds exactly `num_envs` environment instances;
instance `i` has its spaces seeded with `seed + i`, and is wrapped —
when the observability flag is set — with `FullyObsWrapper`, then the
`Minigrid2Image` shape adapter, then `FrameStack(frame_stack)`, and
otherwise with `FlatObsWrapper` (observation flattened to one
vector). -/
theorem C9_factory_seeding (env_id : String) (num_envs : Nat)
    (fully_observable : Bool) (seed : Int) (frame_stack : Nat) :
    (make_minigrid_env env_id num_envs fully_observable seed frame_stack).length = num_envs ∧
    ∀ i, i < num_envs →
      (make_minigrid_env env_id num_envs fully_observable seed frame_stack).getD i
          (.base env_id) =
        EnvSpec.spacesSeeded
          (if fully_observable then
            EnvSpec.frameStack
              (EnvSpec.minigrid2Image (EnvSpec.fullyObsWrapper (EnvSpec.base env_id)))
              frame_stack
          else EnvSpec.flatObsWrapper (EnvSpec.base env_id))
          (seed + i) := by
  constructor
  · simp [make_minigrid_env]
  · intro i hi
    simp [make_minigrid_env, List.getD_eq_getElem?_getD, List.getElem?_map,
      List.getElem?_range hi, make_env]

/-- Witness for C9: four fully-observable instances with base seed 7
and frame-stack depth 2; instance 3 is seeded with `7 + 3`. -/
theorem C9_witness :
    (make_minigrid_env "MiniGrid-DoorKey-5x5-v0" 4 true 7 2).getD 3
        (.base "MiniGrid-DoorKey-5x5-v0") =
      EnvSpec.spacesSeeded
        (EnvSpec.frameStack
          (EnvSpec.minigrid2Image
            (EnvSpec.fullyObsWrapper (EnvSpec.base "MiniGrid-DoorKey-5x5-v0"))) 2)
        10 := by
  have h := (C9_factory_seeding "MiniGrid-DoorKey-5x5-v0" 4 true 7 2).2 3 (by norm_num)
  simpa using h
